import Mathlib

/-!
Verification development for the release-with-cog action
(`release_with_cog.py` and `setup_cog_config.py`).

The Python sources are shallowly embedded: pure logic becomes Lean
functions, parsed TOML documents become association lists of key/value
pairs (Python `dict` semantics: assignment replaces in place, insertion
appends), external processes and the network are oracles supplied as
explicit arguments, and exceptions become `Except`/`Option` results.
A written-back file is identified with its parsed TOML document
(`tomllib.load` after `tomli_w.dump` is the round-trip contract of the
TOML libraries, which are external collaborators).
-/

namespace ReleaseAction

/-- TOML values as produced by `tomllib.load`.  Only the constructors the
configuration files in this repository use are modelled. -/
inductive Toml where
  | str (s : String)
  | int (n : Int)
  | boolean (b : Bool)
  | arr (xs : List Toml)
  | table (kvs : List (String × Toml))
deriving Repr

/-- A parsed TOML document or table, with Python `dict` semantics modelled
as an association list in insertion order. -/
abbrev Dict := List (String × Toml)

/-- Lookup of a key in a Python dict (`d[k]` / `d.get(k)`). -/
def dictLookup : Dict → String → Option Toml
  | [], _ => none
  | (k, v) :: rest, key => if k = key then some v else dictLookup rest key

/-- Python `key in d` membership test. -/
def dictContains (d : Dict) (key : String) : Bool :=
  (dictLookup d key).isSome

/-- Python `d[key] = val`: replace the value in place when the key exists,
append the pair otherwise. -/
def dictSet : Dict → String → Toml → Dict
  | [], key, val => [(key, val)]
  | (k, v) :: rest, key, val =>
      if k = key then (k, val) :: rest else (k, v) :: dictSet rest key val

theorem dictLookup_dictSet_self (d : Dict) (key : String) (val : Toml) :
    dictLookup (dictSet d key val) key = some val := by
  induction d with
  | nil => simp [dictSet, dictLookup]
  | cons head rest ih =>
      obtain ⟨k, v⟩ := head
      by_cases h : k = key
      · simp [dictSet, h, dictLookup]
      · simp [dictSet, h, dictLookup, ih]

theorem dictLookup_dictSet_ne (d : Dict) (key k : String) (val : Toml)
    (h : k ≠ key) : dictLookup (dictSet d key val) k = dictLookup d k := by
  induction d with
  | nil => simp [dictSet, dictLookup, Ne.symm h]
  | cons head rest ih =>
      obtain ⟨k1, v1⟩ := head
      by_cases h1 : k1 = key
      · subst h1
        simp [dictSet, dictLookup, Ne.symm h]
      · simp [dictSet, h1, dictLookup, ih]

theorem dictContains_dictSet_self (d : Dict) (key : String) (val : Toml) :
    dictContains (dictSet d key val) key = true := by
  simp [dictContains, dictLookup_dictSet_self]

theorem dictContains_dictSet_mono (d : Dict) (key k : String) (val : Toml)
    (h : dictContains d k = true) :
    dictContains (dictSet d key val) k = true := by
  by_cases hk : k = key
  · subst hk; simp [dictContains, dictLookup_dictSet_self]
  · simpa [dictContains, dictLookup_dictSet_ne d key k val hk] using h

/-- The `changelog` table of a parsed document (`config["changelog"]`),
reading `[]` when the key is absent or not a table.  All theorems about the
synchronizer restrict to documents where the key, when present, is a table
(`changelogWF`), which is what `tomllib` produces for a `[changelog]`
section. -/
def tableAt (d : Dict) (key : String) : Dict :=
  match dictLookup d key with
  | some (Toml.table t) => t
  | _ => []

/-- Well-formedness of a parsed cog.toml for the synchronizer: the
`changelog` key, when present, holds a table. -/
def changelogWF (d : Dict) : Bool :=
  match dictLookup d "changelog" with
  | none => true
  | some (Toml.table _) => true
  | some _ => false

/-- Model of one `if key not in changelog and value is not None` block of
`setup_cog_config` (setup_cog_config.py lines 64-74): set the key only when
it is absent and a value was supplied, recording whether a change happened. -/
def applyField (cl : Dict) (changes : Bool) (key : String) :
    Option String → Dict × Bool
  | some v =>
      if dictContains cl key then (cl, changes)
      else (dictSet cl key (Toml.str v), true)
  | none => (cl, changes)

/-- The three field updates of `setup_cog_config`, in source order:
remote, repository, owner. -/
def apply_fields (cl : Dict) (remote repository owner : Option String) :
    Dict × Bool :=
  let s1 := applyField cl false "remote" remote
  let s2 := applyField s1.1 s1.2 "repository" repository
  applyField s2.1 s2.2 "owner" owner

/-- Model of `if "changelog" not in config: config["changelog"] = {}`
(setup_cog_config.py lines 56-57). -/
def ensure_changelog (config : Dict) : Dict :=
  if dictContains config "changelog" then config
  else dictSet config "changelog" (Toml.table [])

/-- Model of `setup_cog_config` (setup_cog_config.py lines 29-81) on a
parsed document: returns the in-memory document after the three
conditional updates together with `changes_made`.  The file itself is only
rewritten when `changes_made` is true; see `setup_cog_config_file`. -/
def setup_cog_config (config : Dict) (remote repository owner : Option String) :
    Dict × Bool :=
  (dictSet (ensure_changelog config) "changelog"
      (Toml.table (apply_fields (tableAt (ensure_changelog config) "changelog")
        remote repository owner).1),
   (apply_fields (tableAt (ensure_changelog config) "changelog")
        remote repository owner).2)

/-- The on-disk effect of `setup_cog_config`: the file is rewritten with
the updated document only when `changes_made` is true (lines 77-79),
otherwise its content is untouched. -/
def setup_cog_config_file (file : Dict) (remote repository owner : Option String) :
    Dict × Bool :=
  let res := setup_cog_config file remote repository owner
  (if res.2 then res.1 else file, res.2)

/-- Model of the file-existence check of `setup_cog_config` (lines 47-49):
a missing file raises `FileNotFoundError`, an existing file is processed
without any error. -/
def setup_cog_config_io (file : Option Dict)
    (remote repository owner : Option String) : Except Unit (Dict × Bool) :=
  match file with
  | none => Except.error ()
  | some f => Except.ok (setup_cog_config_file f remote repository owner)

/-- A supplied field value is inert for a changelog table: either nothing
was supplied or the key is already present. -/
def settled (cl : Dict) (key : String) (val : Option String) : Prop :=
  val = none ∨ dictContains cl key = true

theorem applyField_of_settled (cl : Dict) (ch : Bool) (key : String)
    (val : Option String) (h : settled cl key val) :
    applyField cl ch key val = (cl, ch) := by
  cases val with
  | none => rfl
  | some v =>
      rcases h with h | h
      · cases h
      · simp [applyField, h]

theorem applyField_settles (cl : Dict) (ch : Bool) (key : String)
    (val : Option String) : settled (applyField cl ch key val).1 key val := by
  cases val with
  | none => exact Or.inl rfl
  | some v =>
      by_cases h : dictContains cl key
      · exact Or.inr (by simp [applyField, h])
      · refine Or.inr ?_
        simp [applyField, h, dictContains_dictSet_self]

theorem applyField_contains_mono (cl : Dict) (ch : Bool) (key : String)
    (val : Option String) (k : String) (h : dictContains cl k = true) :
    dictContains (applyField cl ch key val).1 k = true := by
  cases val with
  | none => exact h
  | some v =>
      by_cases hc : dictContains cl key
      · have he : (applyField cl ch key (some v)).1 = cl := by simp [applyField, hc]
        rw [he]; exact h
      · have he : (applyField cl ch key (some v)).1 = dictSet cl key (Toml.str v) := by
          simp [applyField, hc]
        rw [he]; exact dictContains_dictSet_mono cl key k _ h

theorem applyField_settled_mono (cl : Dict) (ch : Bool) (key : String)
    (val : Option String) (k : String) (val2 : Option String)
    (h : settled cl k val2) : settled (applyField cl ch key val).1 k val2 := by
  rcases h with h | h
  · exact Or.inl h
  · exact Or.inr (applyField_contains_mono cl ch key val k h)

theorem applyField_lookup_ne (cl : Dict) (ch : Bool) (key : String)
    (val : Option String) (k : String) (h : k ≠ key) :
    dictLookup (applyField cl ch key val).1 k = dictLookup cl k := by
  cases val with
  | none => rfl
  | some v =>
      by_cases hc : dictContains cl key
      · simp [applyField, hc]
      · simp [applyField, hc, dictLookup_dictSet_ne cl key k _ h]

theorem apply_fields_settled (cl : Dict) (r p o : Option String) :
    settled (apply_fields cl r p o).1 "remote" r ∧
    settled (apply_fields cl r p o).1 "repository" p ∧
    settled (apply_fields cl r p o).1 "owner" o := by
  refine ⟨?_, ?_, ?_⟩
  · exact applyField_settled_mono _ _ _ _ _ _
      (applyField_settled_mono _ _ _ _ _ _ (applyField_settles cl false "remote" r))
  · exact applyField_settled_mono _ _ _ _ _ _
      (applyField_settles _ _ "repository" p)
  · exact applyField_settles _ _ "owner" o

theorem apply_fields_of_settled (cl : Dict) (r p o : Option String)
    (h1 : settled cl "remote" r) (h2 : settled cl "repository" p)
    (h3 : settled cl "owner" o) : apply_fields cl r p o = (cl, false) := by
  unfold apply_fields
  simp [applyField_of_settled cl false "remote" r h1,
    applyField_of_settled cl false "repository" p h2,
    applyField_of_settled cl false "owner" o h3]

theorem apply_fields_lookup_ne (cl : Dict) (r p o : Option String) (k : String)
    (h1 : k ≠ "remote") (h2 : k ≠ "repository") (h3 : k ≠ "owner") :
    dictLookup (apply_fields cl r p o).1 k = dictLookup cl k := by
  unfold apply_fields
  rw [applyField_lookup_ne _ _ _ _ _ h3, applyField_lookup_ne _ _ _ _ _ h2,
    applyField_lookup_ne _ _ _ _ _ h1]

theorem ensure_changelog_of_contains (config : Dict)
    (h : dictContains config "changelog" = true) :
    ensure_changelog config = config := by
  simp [ensure_changelog, h]

theorem ensure_changelog_contains (config : Dict) :
    dictContains (ensure_changelog config) "changelog" = true := by
  by_cases h : dictContains config "changelog"
  · simp [ensure_changelog, h]
  · simp [ensure_changelog, h, dictContains_dictSet_self]

theorem tableAt_setup_cog_config (config : Dict) (r p o : Option String) :
    tableAt (setup_cog_config config r p o).1 "changelog" =
      (apply_fields (tableAt (ensure_changelog config) "changelog") r p o).1 := by
  simp [setup_cog_config, tableAt, dictLookup_dictSet_self]

/-- Value of an environment variable read through `get_env(...) or ""`:
an unset variable reads as the empty string. -/
def getEnvD (v : Option String) : String := v.getD ""

/-- Python string truthiness of an environment read: `None` and the empty
string are falsy. -/
def truthy : Option String → Bool
  | none => false
  | some s => s ≠ ""

/-- Python `a or b` on two environment reads: the first value when it is
truthy, the second otherwise. -/
def pyOrOpt (a b : Option String) : Option String :=
  match a with
  | some s => if s = "" then b else some s
  | none => b

/-- The ASCII whitespace characters Python's default `strip` and `split`
treat as separators. -/
def pyIsSpace (c : Char) : Bool :=
  c = ' ' ∨ c = '\t' ∨ c = '\n' ∨ c = '\r' ∨ c = '\x0b' ∨ c = '\x0c'

/-- ASCII lowercasing of one character, as Python `str.lower` performs on
the ASCII strings in scope. -/
def pyLowerChar (c : Char) : Char :=
  if 'A' ≤ c ∧ c ≤ 'Z' then Char.ofNat (c.toNat + 32) else c

/-- Python `s.lower()`. -/
def pyLower (s : String) : String := ⟨s.data.map pyLowerChar⟩

/-- Python `s.strip()`: drop whitespace from both ends. -/
def pyStrip (s : String) : String :=
  ⟨((s.data.dropWhile pyIsSpace).reverse.dropWhile pyIsSpace).reverse⟩

/-- Whether the first character list is a prefix of the second. -/
def charsHavePre : List Char → List Char → Bool
  | [], _ => true
  | _ :: _, [] => false
  | a :: as, b :: bs => a = b && charsHavePre as bs

/-- The remainder of the second list after the first occurrence of the
first list, when it occurs. -/
def charsFindRest (sub : List Char) : List Char → Option (List Char)
  | [] => if charsHavePre sub [] then some [] else none
  | c :: rest =>
      if charsHavePre sub (c :: rest) then some (List.drop sub.length (c :: rest))
      else charsFindRest sub rest

/-- Python `sub in s` substring test. -/
def pyIn (sub s : String) : Bool := (charsFindRest sub.data s.data).isSome

/-- Python `s.split(sep, 1)[1]`: everything after the first occurrence of
the separator (the sources only index `[1]` after testing `sep in s`). -/
def pySplit1Tail (s sep : String) : String :=
  match charsFindRest sep.data s.data with
  | some rest => ⟨rest⟩
  | none => s

/-- Python `s.startswith(p)`. -/
def pyStartsWith (s p : String) : Bool := charsHavePre p.data s.data

/-- Accumulator loop behind `pySplitWS`. -/
def splitWSAux : List Char → List Char → List String
  | [], acc => if acc.isEmpty then [] else [⟨acc.reverse⟩]
  | c :: rest, acc =>
      if pyIsSpace c then
        (if acc.isEmpty then [] else [⟨acc.reverse⟩]) ++ splitWSAux rest []
      else splitWSAux rest (c :: acc)

/-- Python `s.split()`: split on whitespace runs, discarding empty pieces. -/
def pySplitWS (s : String) : List String := splitWSAux s.data []

/-- Concatenation of a list of strings. -/
def strJoin : List String → String
  | [] => ""
  | x :: rest => x ++ strJoin rest

/-- Interleave a separator between the strings of a list. -/
def strIntercalate (sep : String) : List String → String
  | [] => ""
  | [x] => x
  | x :: rest => x ++ sep ++ strIntercalate sep rest

/-- Decimal digits of a natural number (with enough fuel). -/
def natDigitsAux : Nat → Nat → List Char
  | 0, _ => []
  | fuel + 1, n =>
      if n = 0 then [] else natDigitsAux fuel (n / 10) ++ [Char.ofNat (48 + n % 10)]

/-- Python `str(n)` for a non-negative integer. -/
def natToStr (n : Nat) : String :=
  if n = 0 then "0" else ⟨natDigitsAux (n + 1) n⟩

/-- Python `str(n)` for an integer, as `json.dumps` renders numbers. -/
def intToStr : Int → String
  | Int.ofNat n => natToStr n
  | Int.negSucc n => "-" ++ natToStr (n + 1)

/-- The process environment variables the scripts read. -/
structure Env where
  GITHUB_SERVER_URL : Option String
  GITHUB_REPOSITORY : Option String
  GITHUB_REPOSITORY_OWNER : Option String
  GITHUB_HEAD_REF : Option String
  GITHUB_BASE_REF : Option String
  FORGEJO_TOKEN : Option String
  FORGEJO_SERVER_URL : Option String

/-- The action-input dictionary as returned by `get_action_inputs`
(release_with_cog.py lines 42-59), after its `or`-defaults were applied.
Hyphenated keys are written with underscores; the `create-forgejo-release`
input is the field `create_forgejo_release_input`. -/
structure Inputs where
  working_directory : String
  dry_run : String
  dry_run_on_non_default_branch : String
  cog_bump_args : String
  cog_changelog_args : String
  remote : String
  owner : String
  repo : String
  create_forgejo_release_input : String
  update_cog_toml : String

/-- The explicit dry-run flag test `inputs["dry-run"].lower() == "true"`. -/
def explicit_dry_run (inputs : Inputs) : Bool :=
  pyLower inputs.dry_run = "true"

/-- The `inputs["dry-run-on-non-default-branch"].lower() == "true"` test. -/
def dry_run_on_non_default (inputs : Inputs) : Bool :=
  pyLower inputs.dry_run_on_non_default_branch = "true"

/-- Being on the default branch, as the script derives it: the
`GITHUB_HEAD_REF` and `GITHUB_BASE_REF` reads (each defaulted to the empty
string) are equal. -/
def on_default_branch (env : Env) : Bool :=
  getEnvD env.GITHUB_HEAD_REF = getEnvD env.GITHUB_BASE_REF

/-- Model of `determine_dry_run_mode` (release_with_cog.py lines 108-137):
true means DRY_RUN, false means LIVE. -/
def determine_dry_run_mode (inputs : Inputs) (env : Env) : Bool :=
  if explicit_dry_run inputs then on_default_branch env
  else if dry_run_on_non_default inputs then !on_default_branch env
  else false

/-- Model of `extract_domain_from_server_url` (lines 62-67). -/
def extract_domain_from_server_url (env : Env) : String :=
  let server_url := getEnvD env.GITHUB_SERVER_URL
  if pyIn "://" server_url then pySplit1Tail server_url "://" else server_url

/-- Model of `extract_repo_from_repository` (lines 70-75). -/
def extract_repo_from_repository (env : Env) : String :=
  let repository := getEnvD env.GITHUB_REPOSITORY
  if pyIn "/" repository then pySplit1Tail repository "/" else repository

/-- Model of `set_default_values` (lines 78-105): resolved
(remote, owner, repo), each backfilled from the environment when the
corresponding input is empty. -/
def set_default_values (inputs : Inputs) (env : Env) : String × String × String :=
  let remote := if inputs.remote = "" then extract_domain_from_server_url env
                else inputs.remote
  let owner := if inputs.owner = "" then getEnvD env.GITHUB_REPOSITORY_OWNER
               else inputs.owner
  let repo := if inputs.repo = "" then extract_repo_from_repository env
              else inputs.repo
  (remote, owner, repo)

/-- Outcome of one external process invocation (`subprocess.run` with
`capture_output=True`). -/
structure CmdResult where
  returncode : Int
  stdout : String
  stderr : String

/-- Model of `run_cog_command` (release_with_cog.py lines 206-221) applied
to the invocation's outcome: a zero exit yields the stripped standard
output, a non-zero exit raises `ReleaseWithCogError` (the `Except.error`
case). -/
def run_cog_command (res : CmdResult) : Except Unit String :=
  if res.returncode = 0 then Except.ok (pyStrip res.stdout) else Except.error ()

/-- Model of `get_cog_version` (lines 224-235): the raised
`ReleaseWithCogError` is caught and turned into the empty string. -/
def get_cog_version (cmd : CmdResult) : String :=
  match run_cog_command cmd with
  | Except.ok v => v
  | Except.error _ => ""

/-- Model of `get_tag_prefix` (lines 309-317) applied to the outcome of
opening and parsing cog.toml: any exception while reading or parsing
(`Except.error`) and an absent key both give the empty string.  The model
covers string-valued prefixes, the type the configuration schema uses. -/
def get_tag_pfx (cfg : Except Unit Dict) : String :=
  match cfg with
  | Except.error _ => ""
  | Except.ok config =>
      match dictLookup config "tag_prefix" with
      | some (Toml.str s) => s
      | _ => ""

/-- The tag the changelog is scoped to: `f"{tag_prefix}{version}"`
(line 344). -/
def full_tag (cfg : Except Unit Dict) (version : String) : String :=
  get_tag_pfx cfg ++ version

/-- The argument list `generate_changelog` builds for the changelog tool
(lines 331-345). -/
def changelog_args (inputs : Inputs) (remote owner repo version : String)
    (cfg : Except Unit Dict) : List String :=
  let args := ["changelog"]
  let args := args ++ (if pyStrip inputs.cog_changelog_args ≠ "" then
      pySplitWS (pyStrip inputs.cog_changelog_args) else [])
  let args := args ++ (if remote ≠ "" ∧ owner ≠ "" ∧ repo ≠ "" then
      ["--remote", remote, "--owner", owner, "--repository", repo] else [])
  args ++ (if version ≠ "" then ["--at", full_tag cfg version] else [])

/-- Model of `generate_changelog` (lines 320-359).  The changelog tool is
an oracle from the built argument list to the invocation outcome; a raised
`ReleaseWithCogError` is caught and turned into the empty string. -/
def generate_changelog (inputs : Inputs) (remote owner repo version : String)
    (cfg : Except Unit Dict) (tool : List String → CmdResult) : String :=
  match run_cog_command (tool (changelog_args inputs remote owner repo version cfg)) with
  | Except.ok out => out
  | Except.error _ => ""

/-- A JSON scalar value, as placed in the release dictionary. -/
inductive JVal where
  | null
  | str (s : String)
  | num (n : Int)
deriving Repr

/-- JSON string encoding as `json.dumps` performs it on the strings in
scope (escaping backslash, quote and the common control characters). -/
def jsonEscape (c : Char) : String :=
  if c = '\\' then "\\\\"
  else if c = '"' then "\\\""
  else if c = '\n' then "\\n"
  else if c = '\t' then "\\t"
  else if c = '\r' then "\\r"
  else String.singleton c

/-- Encoding of a Python `str` by `json.dumps`. -/
def jdumpStr (s : String) : String :=
  "\"" ++ strJoin (s.data.map jsonEscape) ++ "\""

/-- Encoding of a JSON scalar by `json.dumps`. -/
def jvalDump : JVal → String
  | JVal.null => "null"
  | JVal.str s => jdumpStr s
  | JVal.num n => intToStr n

/-- Encoding of a flat Python dict by `json.dumps` (default separators). -/
def jobjDump (kvs : List (String × JVal)) : String :=
  "\x7b" ++ strIntercalate ", "
      (kvs.map (fun kv => jdumpStr kv.1 ++ ": " ++ jvalDump kv.2)) ++ "\x7d"

/-- The relevant attributes of the object returned by
`repo_create_release`; either may be absent (`getattr` default). -/
structure ApiResp where
  html_url : Option String
  api_id : Option Int

/-- The arguments `create_forgejo_release` passes to
`repo_create_release` (lines 402-408). -/
structure ReleaseCall where
  owner : String
  repo : String
  tag_name : String
  name : String
  body : String

/-- Severity levels of the action-runtime logging surface. -/
inductive LogLevel where
  | dbg
  | inf
  | ntc
  | warn
  | err
deriving Repr, DecidableEq

/-- Observable outcome of `create_forgejo_release`: the returned value
(`None` or the JSON string), the release-creation call made (if the forge
was contacted), and the log messages emitted. -/
structure ReleaseAttempt where
  result : Option String
  call : Option ReleaseCall
  logs : List (LogLevel × String)

/-- The server URL after normalization (lines 392-394): `FORGEJO_SERVER_URL`
or `GITHUB_SERVER_URL`, prefixed with `https://` when no scheme is given. -/
def resolved_server_url (env : Env) : String :=
  let raw := getEnvD (pyOrOpt env.FORGEJO_SERVER_URL env.GITHUB_SERVER_URL)
  if pyStartsWith raw "http://" || pyStartsWith raw "https://" then raw
  else "https://" ++ raw

/-- The release URL reported (lines 411-415): the response's `html_url`
when present, else the deterministically constructed URL. -/
def release_url_of (env : Env) (resp : ApiResp) (owner repo version : String) :
    String :=
  match resp.html_url with
  | some u => u
  | none => resolved_server_url env ++ "/" ++ owner ++ "/" ++ repo ++
      "/releases/tag/" ++ version

/-- The `release_dict` built for JSON output (lines 419-425). -/
def release_dict (version changelog release_url : String) (api_id : Option Int) :
    List (String × JVal) :=
  [("tag_name", JVal.str version), ("name", JVal.str version),
   ("body", JVal.str changelog), ("html_url", JVal.str release_url),
   ("id", match api_id with | some n => JVal.num n | none => JVal.null)]

/-- Model of `create_forgejo_release` (release_with_cog.py lines 362-433).
The network call is an oracle; any exception it raises is the
`Except.error` case, which the function converts to a `None` result (the
surrounding `except Exception` handler).  The function itself never
raises: it is total. -/
def create_forgejo_release (env : Env) (net : Except Unit ApiResp)
    (version changelog owner repo : String) : ReleaseAttempt :=
  if version = "" then
    { result := none, call := none,
      logs := [(LogLevel.inf, "No version available, skipping Forgejo release creation")] }
  else if !truthy env.FORGEJO_TOKEN then
    { result := none, call := none,
      logs := [(LogLevel.err, "FORGEJO_TOKEN environment variable not set")] }
  else if !truthy (pyOrOpt env.FORGEJO_SERVER_URL env.GITHUB_SERVER_URL) then
    { result := none, call := none,
      logs := [(LogLevel.err, "FORGEJO_SERVER_URL or GITHUB_SERVER_URL environment variable not set")] }
  else
    match net with
    | Except.error _ =>
        { result := none,
          call := some ⟨owner, repo, version, version, changelog⟩,
          logs := [(LogLevel.err, "Failed to create Forgejo release")] }
    | Except.ok resp =>
        { result := some (jobjDump (release_dict version changelog
            (release_url_of env resp owner repo version) resp.api_id)),
          call := some ⟨owner, repo, version, version, changelog⟩,
          logs := [] }

/-- Oracle for every external effect one run of `main` performs, in
program order: the cog.toml state seen by the synchronizer, the git
commands of the synchronizer, the two version queries, the bump tool, the
diagnostic git calls, the fresh cog.toml read of `get_tag_prefix`, the
changelog tool, and the forge API call. -/
structure ExtWorld where
  config_file : Option Dict
  git_add_ok : Bool
  git_diff_cached_code : Int
  git_commit_ok : Bool
  git_push_ok : Bool
  cog_get_version1 : CmdResult
  cog_bump_exn : Bool
  cog_bump : CmdResult
  git_status : CmdResult
  git_diff : CmdResult
  cog_get_version2 : CmdResult
  cog_toml_read : Except Unit Dict
  cog_changelog_tool : List String → CmdResult
  release_api : Except Unit ApiResp

/-- Model of `setup_cog_configuration` (release_with_cog.py lines
140-203).  `Except.error` is the raised `ReleaseWithCogError`: a missing
cog.toml (`FileNotFoundError` from `setup_cog_config`) and a failing
`git add` (`CalledProcessError`, `check=True`) both reach the
`except Exception` handler and are re-raised as the pipeline error, while
`git commit` / `git push` failures are swallowed by the inner
`except subprocess.CalledProcessError` handler. -/
def setup_cog_configuration (inputs : Inputs) (remote owner repo : String)
    (w : ExtWorld) : Except Unit Unit :=
  if pyLower inputs.update_cog_toml ≠ "true" then Except.ok ()
  else
    match setup_cog_config_io w.config_file (some remote) (some repo) (some owner) with
    | Except.error _ => Except.error ()
    | Except.ok res =>
        if res.2 then
          if !w.git_add_ok then Except.error ()
          else Except.ok ()
        else Except.ok ()

/-- The argument list `bump_version` builds for the bump tool
(lines 243-254). -/
def bump_args (inputs : Inputs) (dr : Bool) : List String :=
  let args := ["bump"]
  let args := args ++ (if pyStrip inputs.cog_bump_args ≠ "" then
      pySplitWS (pyStrip inputs.cog_bump_args) else [])
  let args := args ++ (if dr then ["--dry-run"] else [])
  args ++ ["--auto", "--skip-ci"]

/-- Model of `bump_version` (lines 238-306): the tool runs with
`check=False`, a non-zero exit only logs a warning, and the outer
`except Exception` converts any raised exception into `False`.  The
function is total: it never raises. -/
def bump_version (inputs : Inputs) (w : ExtWorld) (dr : Bool) : Bool :=
  let _args := bump_args inputs dr
  if w.cog_bump_exn then false else w.cog_bump.returncode = 0

/-- The exit code and emitted named outputs of one run of `main`. -/
structure RunOutcome where
  exitCode : Nat
  outputs : List (String × String)

/-- Model of `main` (release_with_cog.py lines 436-496).  The only caught
exception at this level is `ReleaseWithCogError` from
`setup_cog_configuration`, which produces `sys.exit(1)`; every other step
is total.  Named outputs are listed in emission order. -/
def mainRun (inputs : Inputs) (env : Env) (w : ExtWorld) : RunOutcome :=
  let rop := set_default_values inputs env
  let remote := rop.1
  let owner := rop.2.1
  let repo := rop.2.2
  let dr := determine_dry_run_mode inputs env
  match setup_cog_configuration inputs remote owner repo w with
  | Except.error _ =>
      { exitCode := 1,
        outputs := [("remote", remote), ("owner", owner), ("repo", repo),
          ("dry_run_arg", if dr then "--dry-run" else "")] }
  | Except.ok _ =>
      let previous_version := get_cog_version w.cog_get_version1
      let _bumped := bump_version inputs w dr
      let current_version := get_cog_version w.cog_get_version2
      let changelog := generate_changelog inputs remote owner repo
          current_version w.cog_toml_read w.cog_changelog_tool
      if pyLower inputs.create_forgejo_release_input = "true" ∧ current_version ≠ "" then
        let att := create_forgejo_release env w.release_api current_version
            changelog owner repo
        match att.result with
        | some s =>
            if s ≠ "" then
              { exitCode := 0,
                outputs := [("remote", remote), ("owner", owner), ("repo", repo),
                  ("dry_run_arg", if dr then "--dry-run" else ""),
                  ("previous_version", previous_version),
                  ("current_version", current_version),
                  ("changelog", changelog),
                  ("forgejo_release_output", jdumpStr s)] }
            else
              { exitCode := 0,
                outputs := [("remote", remote), ("owner", owner), ("repo", repo),
                  ("dry_run_arg", if dr then "--dry-run" else ""),
                  ("previous_version", previous_version),
                  ("current_version", current_version),
                  ("changelog", changelog)] }
        | none =>
            { exitCode := 0,
              outputs := [("remote", remote), ("owner", owner), ("repo", repo),
                ("dry_run_arg", if dr then "--dry-run" else ""),
                ("previous_version", previous_version),
                ("current_version", current_version),
                ("changelog", changelog)] }
      else
        { exitCode := 0,
          outputs := [("remote", remote), ("owner", owner), ("repo", repo),
            ("dry_run_arg", if dr then "--dry-run" else ""),
            ("previous_version", previous_version),
            ("current_version", current_version),
            ("changelog", changelog)] }

/-- Sample resolved inputs: explicit coordinates, release creation on,
config synchronization off. -/
def inputs0 : Inputs :=
  { working_directory := ".", dry_run := "false",
    dry_run_on_non_default_branch := "true", cog_bump_args := "",
    cog_changelog_args := "", remote := "git.example.com", owner := "acme",
    repo := "proj", create_forgejo_release_input := "true",
    update_cog_toml := "false" }

/-- Sample inputs with every user-supplied value left empty, i.e. the
`get_action_inputs` defaults. -/
def inputs_blank : Inputs :=
  { working_directory := ".", dry_run := "false",
    dry_run_on_non_default_branch := "true", cog_bump_args := "",
    cog_changelog_args := "", remote := "", owner := "", repo := "",
    create_forgejo_release_input := "true", update_cog_toml := "true" }

/-- An environment with every forge variable unset. -/
def env_unset : Env :=
  { GITHUB_SERVER_URL := none, GITHUB_REPOSITORY := none,
    GITHUB_REPOSITORY_OWNER := none, GITHUB_HEAD_REF := none,
    GITHUB_BASE_REF := none, FORGEJO_TOKEN := none,
    FORGEJO_SERVER_URL := none }

/-- An environment holding a token and a server URL. -/
def env0 : Env :=
  { GITHUB_SERVER_URL := none, GITHUB_REPOSITORY := none,
    GITHUB_REPOSITORY_OWNER := none, GITHUB_HEAD_REF := none,
    GITHUB_BASE_REF := none, FORGEJO_TOKEN := some "tok",
    FORGEJO_SERVER_URL := some "https://git.example.com" }

/-- A successful release-creation response. -/
def resp0 : ApiResp :=
  { html_url := some "https://git.example.com/acme/proj/releases/tag/1.0.0",
    api_id := some 7 }

/-- A world in which every external call succeeds and the bump produces
version 1.0.0. -/
def w0 : ExtWorld :=
  { config_file := none, git_add_ok := true, git_diff_cached_code := 0,
    git_commit_ok := true, git_push_ok := true,
    cog_get_version1 := ⟨0, "0.9.0", ""⟩, cog_bump_exn := false,
    cog_bump := ⟨0, "", ""⟩, git_status := ⟨0, "", ""⟩,
    git_diff := ⟨0, "", ""⟩, cog_get_version2 := ⟨0, "1.0.0", ""⟩,
    cog_toml_read := Except.ok [],
    cog_changelog_tool := fun _ => ⟨0, "Release notes", ""⟩,
    release_api := Except.ok resp0 }

/-- A parsed cog.toml whose changelog section has only `path` and
`template`. -/
def file0 : Dict :=
  [("changelog", Toml.table [("path", Toml.str "CHANGELOG.md"),
    ("template", Toml.str "remote")])]

/-- A parsed cog.toml whose changelog section already declares
`remote = "existing"`. -/
def file_existing : Dict :=
  [("changelog", Toml.table [("remote", Toml.str "existing")])]

theorem jobjDump_ne_empty (kvs : List (String × JVal)) : jobjDump kvs ≠ "" := by
  unfold jobjDump
  intro h
  have hlen := congrArg String.length h
  rw [String.length_append, String.length_append] at hlen
  have h1 : ("" : String).length = 0 := by decide
  have h2 : ("\x7b" : String).length = 1 := by decide
  have h3 : ("\x7d" : String).length = 1 := by decide
  rw [h1, h2, h3] at hlen
  omega

/-- When the token and server URL are present, the version is non-empty
and the API call returns, `create_forgejo_release` returns exactly the
JSON encoding (a single `json.dumps`) of the release dictionary. -/
theorem create_forgejo_release_result_ok (env : Env) (resp : ApiResp)
    (version changelog owner repo : String) (hv : version ≠ "")
    (ht : truthy env.FORGEJO_TOKEN = true)
    (hs : truthy (pyOrOpt env.FORGEJO_SERVER_URL env.GITHUB_SERVER_URL) = true) :
    (create_forgejo_release env (Except.ok resp) version changelog owner repo).result =
      some (jobjDump (release_dict version changelog
        (release_url_of env resp owner repo version) resp.api_id)) := by
  unfold create_forgejo_release
  rw [if_neg hv, ht, hs]
  rfl

/-- A returned release JSON string is never empty. -/
theorem create_forgejo_release_result_ne_empty (env : Env)
    (net : Except Unit ApiResp) (version changelog owner repo s : String)
    (h : (create_forgejo_release env net version changelog owner repo).result = some s) :
    s ≠ "" := by
  intro hs
  subst hs
  unfold create_forgejo_release at h
  split at h
  · simp at h
  · split at h
    · simp at h
    · split at h
      · simp at h
      · cases net with
        | error e => simp at h
        | ok resp =>
            simp at h
            exact jobjDump_ne_empty _ h

theorem applyField_lookup_present (cl : Dict) (ch : Bool) (key : String)
    (val : Option String) (k : String) (v : Toml)
    (h : dictLookup cl k = some v) :
    dictLookup (applyField cl ch key val).1 k = some v := by
  by_cases hk : k = key
  · subst hk
    have hc : dictContains cl k = true := by simp [dictContains, h]
    cases val with
    | none => exact h
    | some s =>
        have he : (applyField cl ch k (some s)).1 = cl := by simp [applyField, hc]
        rw [he]; exact h
  · rw [applyField_lookup_ne _ _ _ _ _ hk]; exact h

theorem apply_fields_lookup_present (cl : Dict) (r p o : Option String)
    (key : String) (v : Toml) (h : dictLookup cl key = some v) :
    dictLookup (apply_fields cl r p o).1 key = some v := by
  simp only [apply_fields]
  exact applyField_lookup_present _ _ _ _ _ _
    (applyField_lookup_present _ _ _ _ _ _
      (applyField_lookup_present _ _ _ _ _ _ h))

theorem tableAt_ensure_changelog (file : Dict) :
    tableAt (ensure_changelog file) "changelog" = tableAt file "changelog" := by
  by_cases hc : dictContains file "changelog" = true
  · rw [ensure_changelog_of_contains file hc]
  · unfold ensure_changelog
    rw [if_neg (by simpa using hc)]
    unfold tableAt
    rw [dictLookup_dictSet_self]
    unfold dictContains at hc
    cases hl : dictLookup file "changelog" with
    | none => rfl
    | some val => rw [hl] at hc; simp at hc

theorem ensure_changelog_lookup_ne (file : Dict) (k : String)
    (h : k ≠ "changelog") :
    dictLookup (ensure_changelog file) k = dictLookup file k := by
  unfold ensure_changelog
  by_cases hc : dictContains file "changelog" = true
  · rw [if_pos hc]
  · rw [if_neg (by simpa using hc), dictLookup_dictSet_ne _ _ _ _ h]

theorem setup_eq_of_apply_eq (file : Dict) (r p o r2 p2 o2 : Option String)
    (h : apply_fields (tableAt (ensure_changelog file) "changelog") r p o =
      apply_fields (tableAt (ensure_changelog file) "changelog") r2 p2 o2) :
    setup_cog_config file r p o = setup_cog_config file r2 p2 o2 := by
  unfold setup_cog_config
  rw [h]

theorem apply_fields_remote_inert (cl : Dict) (r p o : Option String)
    (h : dictContains cl "remote" = true) :
    apply_fields cl r p o = apply_fields cl none p o := by
  simp only [apply_fields,
    applyField_of_settled cl false "remote" r (Or.inr h),
    applyField_of_settled cl false "remote" (none : Option String) (Or.inl rfl)]

theorem apply_fields_repository_inert (cl : Dict) (r p o : Option String)
    (h : dictContains cl "repository" = true) :
    apply_fields cl r p o = apply_fields cl r none o := by
  simp only [apply_fields]
  rw [applyField_of_settled (applyField cl false "remote" r).1
        (applyField cl false "remote" r).2 "repository" p
        (Or.inr (applyField_contains_mono cl false "remote" r "repository" h)),
      applyField_of_settled (applyField cl false "remote" r).1
        (applyField cl false "remote" r).2 "repository" (none : Option String)
        (Or.inl rfl)]

theorem apply_fields_owner_inert (cl : Dict) (r p o : Option String)
    (h : dictContains cl "owner" = true) :
    apply_fields cl r p o = apply_fields cl r p none := by
  simp only [apply_fields]
  have hmono : dictContains (applyField (applyField cl false "remote" r).1
      (applyField cl false "remote" r).2 "repository" p).1 "owner" = true :=
    applyField_contains_mono _ _ _ _ _
      (applyField_contains_mono cl false "remote" r "owner" h)
  rw [applyField_of_settled _ _ "owner" o (Or.inr hmono),
      applyField_of_settled _ _ "owner" (none : Option String) (Or.inl rfl)]

theorem applyField_snd_true (cl : Dict) (ch : Bool) (key : String)
    (val : Option String) (h : ch = true) :
    (applyField cl ch key val).2 = true := by
  subst h
  cases val with
  | none => rfl
  | some v => by_cases hc : dictContains cl key <;> simp [applyField, hc]

theorem apply_fields_snd_of_remote_absent (cl : Dict) (p o : Option String)
    (v : String) (h : dictContains cl "remote" = false) :
    (apply_fields cl (some v) p o).2 = true := by
  simp only [apply_fields]
  apply applyField_snd_true
  apply applyField_snd_true
  have h1 : applyField cl false "remote" (some v) =
      (dictSet cl "remote" (Toml.str v), true) := by
    simp [applyField, h]
  rw [h1]

theorem apply_fields_lookup_remote_set (cl : Dict) (p o : Option String)
    (v : String) (h : dictContains cl "remote" = false) :
    dictLookup (apply_fields cl (some v) p o).1 "remote" =
      some (Toml.str v) := by
  simp only [apply_fields]
  have h1 : applyField cl false "remote" (some v) =
      (dictSet cl "remote" (Toml.str v), true) := by
    simp [applyField, h]
  rw [h1]
  exact applyField_lookup_present _ _ _ _ _ _
    (applyField_lookup_present _ _ _ _ _ _ (dictLookup_dictSet_self _ _ _))

theorem apply_fields_lookup_remote_none (cl : Dict) (p o : Option String)
    (h : dictLookup cl "remote" = none) :
    dictLookup (apply_fields cl none p o).1 "remote" = none := by
  simp only [apply_fields,
    applyField_of_settled cl false "remote" (none : Option String) (Or.inl rfl)]
  rw [applyField_lookup_ne _ _ _ _ _ (by decide : ("remote" : String) ≠ "owner"),
      applyField_lookup_ne _ _ _ _ _ (by decide : ("remote" : String) ≠ "repository")]
  exact h

theorem apply_fields_all_set (cl : Dict) (a b c : String)
    (h1 : dictLookup cl "remote" = none)
    (h2 : dictLookup cl "repository" = none)
    (h3 : dictLookup cl "owner" = none) :
    dictLookup (apply_fields cl (some a) (some b) (some c)).1 "remote" =
        some (Toml.str a) ∧
    dictLookup (apply_fields cl (some a) (some b) (some c)).1 "repository" =
        some (Toml.str b) ∧
    dictLookup (apply_fields cl (some a) (some b) (some c)).1 "owner" =
        some (Toml.str c) := by
  have hc1 : dictContains cl "remote" = false := by simp [dictContains, h1]
  have e1 : applyField cl false "remote" (some a) =
      (dictSet cl "remote" (Toml.str a), true) := by simp [applyField, hc1]
  have h2b : dictLookup (dictSet cl "remote" (Toml.str a)) "repository" = none := by
    rw [dictLookup_dictSet_ne _ _ _ _ (by decide)]; exact h2
  have hc2 : dictContains (dictSet cl "remote" (Toml.str a)) "repository" = false := by
    simp [dictContains, h2b]
  have e2 : applyField (dictSet cl "remote" (Toml.str a)) true "repository" (some b) =
      (dictSet (dictSet cl "remote" (Toml.str a)) "repository" (Toml.str b), true) := by
    simp [applyField, hc2]
  have h3b : dictLookup (dictSet (dictSet cl "remote" (Toml.str a)) "repository"
      (Toml.str b)) "owner" = none := by
    rw [dictLookup_dictSet_ne _ _ _ _ (by decide),
      dictLookup_dictSet_ne _ _ _ _ (by decide)]
    exact h3
  have hc3 : dictContains (dictSet (dictSet cl "remote" (Toml.str a)) "repository"
      (Toml.str b)) "owner" = false := by
    simp [dictContains, h3b]
  have e3 : applyField (dictSet (dictSet cl "remote" (Toml.str a)) "repository"
        (Toml.str b)) true "owner" (some c) =
      (dictSet (dictSet (dictSet cl "remote" (Toml.str a)) "repository" (Toml.str b))
        "owner" (Toml.str c), true) := by
    simp [applyField, hc3]
  refine ⟨?_, ?_, ?_⟩ <;>
    · simp only [apply_fields]
      rw [e1]; dsimp only
      rw [e2]; dsimp only
      rw [e3]; dsimp only
      first
      | exact dictLookup_dictSet_self _ _ _
      | rw [dictLookup_dictSet_ne _ _ _ _ (by decide)]
        first
        | exact dictLookup_dictSet_self _ _ _
        | rw [dictLookup_dictSet_ne _ _ _ _ (by decide)]
          exact dictLookup_dictSet_self _ _ _

/-- C1: for every combination of the inputs `explicit_dry_run` and
`dry_run_on_non_default_branch` (each "true" or not) and of
`on_default_branch` (head-ref equals base-ref), `determine_dry_run_mode`
returns DRY_RUN (true) exactly when either the explicit flag is set and the
run is on the default branch, or the explicit flag is unset,
`dry-run-on-non-default-branch` is set, and the run is not on the default
branch; and LIVE (false) in every other case — the §4.2/§8 decision table
on all eight combinations. -/
theorem c1_dry_run_decision_table (inputs : Inputs) (env : Env) :
    determine_dry_run_mode inputs env =
      (explicit_dry_run inputs && on_default_branch env ||
        (!explicit_dry_run inputs && dry_run_on_non_default inputs &&
          !on_default_branch env)) := by
  unfold determine_dry_run_mode
  cases h1 : explicit_dry_run inputs <;>
    cases h2 : dry_run_on_non_default inputs <;>
      cases h3 : on_default_branch env <;> simp [h1, h2, h3]

theorem setup_cog_config_snd (file : Dict) (r p o : Option String) :
    (setup_cog_config file r p o).2 =
      (apply_fields (tableAt (ensure_changelog file) "changelog") r p o).2 := rfl

theorem setup_cog_config_of_contains_settled (m : Dict) (r p o : Option String)
    (hcontains : dictContains m "changelog" = true)
    (haf : apply_fields (tableAt m "changelog") r p o = (tableAt m "changelog", false)) :
    setup_cog_config m r p o =
      (dictSet m "changelog" (Toml.table (tableAt m "changelog")), false) := by
  unfold setup_cog_config
  rw [ensure_changelog_of_contains m hcontains, haf]

/-- C4: the Config Synchronizer is idempotent.  For every configuration
file (with a table-valued changelog section, as `tomllib` produces) and
every triple of supplied values, a second `setup_cog_config` run with the
same arguments on the file produced by the first run reports
`changes_made = false` and leaves the file content identical to the state
after the first run. -/
theorem c4_config_sync_idempotent (file : Dict) (r p o : Option String)
    (_hwf : changelogWF file = true) :
    (setup_cog_config_file (setup_cog_config_file file r p o).1 r p o).2 = false ∧
    (setup_cog_config_file (setup_cog_config_file file r p o).1 r p o).1 =
      (setup_cog_config_file file r p o).1 := by
  by_cases hb : (setup_cog_config file r p o).2 = true
  · have hcontains : dictContains (setup_cog_config file r p o).1 "changelog" = true := by
      unfold setup_cog_config
      exact dictContains_dictSet_self _ _ _
    have hsettled := apply_fields_settled
        (tableAt (ensure_changelog file) "changelog") r p o
    have haf2 : apply_fields (tableAt (setup_cog_config file r p o).1 "changelog") r p o =
        (tableAt (setup_cog_config file r p o).1 "changelog", false) := by
      rw [tableAt_setup_cog_config]
      exact apply_fields_of_settled _ _ _ _ hsettled.1 hsettled.2.1 hsettled.2.2
    have hrun2 : setup_cog_config (setup_cog_config file r p o).1 r p o =
        (dictSet (setup_cog_config file r p o).1 "changelog"
          (Toml.table (tableAt (setup_cog_config file r p o).1 "changelog")), false) :=
      setup_cog_config_of_contains_settled _ r p o hcontains haf2
    have hsnd : (setup_cog_config (setup_cog_config file r p o).1 r p o).2 = false := by
      rw [hrun2]
    have hf1 : (setup_cog_config_file file r p o).1 = (setup_cog_config file r p o).1 := by
      simp [setup_cog_config_file, hb]
    refine ⟨?_, ?_⟩
    · rw [hf1]
      simp [setup_cog_config_file, hsnd]
    · rw [hf1]
      simp [setup_cog_config_file, hsnd]
  · have hb2 : (setup_cog_config file r p o).2 = false := by
      cases hx : (setup_cog_config file r p o).2
      · rfl
      · exact absurd hx hb
    have hf1 : (setup_cog_config_file file r p o).1 = file := by
      simp [setup_cog_config_file, hb2]
    refine ⟨?_, ?_⟩
    · rw [hf1]
      simp [setup_cog_config_file, hb2]
    · rw [hf1]
      exact hf1

/-- C5: the Config Synchronizer never overwrites a changelog field that is
already present in the file: the run is identical to a run in which
nothing was supplied for that field (so the field contributes no change,
in value or in the `changes_made` flag), and the field's value is
preserved in the result. -/
theorem c5_config_sync_no_overwrite (file : Dict) (r p o : Option String) :
    (∀ v, dictLookup (tableAt file "changelog") "remote" = some v →
      setup_cog_config file r p o = setup_cog_config file none p o ∧
      dictLookup (tableAt (setup_cog_config file r p o).1 "changelog")
        "remote" = some v) ∧
    (∀ v, dictLookup (tableAt file "changelog") "repository" = some v →
      setup_cog_config file r p o = setup_cog_config file r none o ∧
      dictLookup (tableAt (setup_cog_config file r p o).1 "changelog")
        "repository" = some v) ∧
    (∀ v, dictLookup (tableAt file "changelog") "owner" = some v →
      setup_cog_config file r p o = setup_cog_config file r p none ∧
      dictLookup (tableAt (setup_cog_config file r p o).1 "changelog")
        "owner" = some v) := by
  refine ⟨fun v hv => ⟨?_, ?_⟩, fun v hv => ⟨?_, ?_⟩, fun v hv => ⟨?_, ?_⟩⟩
  · apply setup_eq_of_apply_eq
    rw [tableAt_ensure_changelog]
    exact apply_fields_remote_inert _ r p o (by simp [dictContains, hv])
  · rw [tableAt_setup_cog_config, tableAt_ensure_changelog]
    exact apply_fields_lookup_present _ r p o "remote" v hv
  · apply setup_eq_of_apply_eq
    rw [tableAt_ensure_changelog]
    exact apply_fields_repository_inert _ r p o (by simp [dictContains, hv])
  · rw [tableAt_setup_cog_config, tableAt_ensure_changelog]
    exact apply_fields_lookup_present _ r p o "repository" v hv
  · apply setup_eq_of_apply_eq
    rw [tableAt_ensure_changelog]
    exact apply_fields_owner_inert _ r p o (by simp [dictContains, hv])
  · rw [tableAt_setup_cog_config, tableAt_ensure_changelog]
    exact apply_fields_lookup_present _ r p o "owner" v hv

/-- C9: an empty supplied string is not inert.  On a file whose changelog
section lacks the fields, supplying `""` (non-`None`) writes the empty
string and reports a change, while `None` leaves the field absent;
`set_default_values` resolves to empty strings when the forge environment
variables are unset and the inputs are blank; and the orchestrator's call
with those defaults persists `""` for all three coordinates. -/
theorem c9_empty_string_not_inert (file : Dict) (p o : Option String)
    (_hwf : changelogWF file = true)
    (h1 : dictLookup (tableAt file "changelog") "remote" = none)
    (h2 : dictLookup (tableAt file "changelog") "repository" = none)
    (h3 : dictLookup (tableAt file "changelog") "owner" = none) :
    ((setup_cog_config file (some "") p o).2 = true ∧
      dictLookup (tableAt (setup_cog_config file (some "") p o).1 "changelog")
        "remote" = some (Toml.str "")) ∧
    dictLookup (tableAt (setup_cog_config file none p o).1 "changelog")
      "remote" = none ∧
    set_default_values inputs_blank env_unset = ("", "", "") ∧
    ((setup_cog_config file (some "") (some "") (some "")).2 = true ∧
      dictLookup (tableAt (setup_cog_config file (some "") (some "") (some "")).1
        "changelog") "remote" = some (Toml.str "") ∧
      dictLookup (tableAt (setup_cog_config file (some "") (some "") (some "")).1
        "changelog") "repository" = some (Toml.str "") ∧
      dictLookup (tableAt (setup_cog_config file (some "") (some "") (some "")).1
        "changelog") "owner" = some (Toml.str "")) := by
  have hc1 : dictContains (tableAt file "changelog") "remote" = false := by
    simp [dictContains, h1]
  refine ⟨⟨?_, ?_⟩, ?_, ?_, ⟨?_, ?_, ?_, ?_⟩⟩
  · rw [setup_cog_config_snd, tableAt_ensure_changelog]
    exact apply_fields_snd_of_remote_absent _ p o "" hc1
  · rw [tableAt_setup_cog_config, tableAt_ensure_changelog]
    exact apply_fields_lookup_remote_set _ p o "" hc1
  · rw [tableAt_setup_cog_config, tableAt_ensure_changelog]
    exact apply_fields_lookup_remote_none _ p o h1
  · rfl
  · rw [setup_cog_config_snd, tableAt_ensure_changelog]
    exact apply_fields_snd_of_remote_absent _ _ _ "" hc1
  · rw [tableAt_setup_cog_config, tableAt_ensure_changelog]
    exact (apply_fields_all_set _ "" "" "" h1 h2 h3).1
  · rw [tableAt_setup_cog_config, tableAt_ensure_changelog]
    exact (apply_fields_all_set _ "" "" "" h1 h2 h3).2.1
  · rw [tableAt_setup_cog_config, tableAt_ensure_changelog]
    exact (apply_fields_all_set _ "" "" "" h1 h2 h3).2.2

/-- C10: `setup_cog_config` preserves, in the rewritten file, every key
other than the three it may add: top-level keys other than `changelog`
and changelog keys other than remote/repository/owner are unchanged; an
existing file is processed without error; and a missing changelog section
is created as a table rather than treated as an error. -/
theorem c10_config_sync_frame (file : Dict) (r p o : Option String)
    (_hwf : changelogWF file = true) :
    setup_cog_config_io (some file) r p o =
      Except.ok (setup_cog_config_file file r p o) ∧
    (∀ k, k ≠ "changelog" →
      dictLookup (setup_cog_config_file file r p o).1 k = dictLookup file k) ∧
    (∀ k, k ≠ "remote" → k ≠ "repository" → k ≠ "owner" →
      dictLookup (tableAt (setup_cog_config_file file r p o).1 "changelog") k =
        dictLookup (tableAt file "changelog") k) ∧
    (dictLookup file "changelog" = none →
      ∃ t, dictLookup (setup_cog_config file r p o).1 "changelog" =
        some (Toml.table t)) := by
  refine ⟨rfl, ?_, ?_, ?_⟩
  · intro k hk
    by_cases hb : (setup_cog_config file r p o).2 = true
    · have hf : (setup_cog_config_file file r p o).1 =
          (setup_cog_config file r p o).1 := by
        simp [setup_cog_config_file, hb]
      rw [hf]
      unfold setup_cog_config
      dsimp only
      rw [dictLookup_dictSet_ne _ _ _ _ hk, ensure_changelog_lookup_ne file k hk]
    · have hb2 : (setup_cog_config file r p o).2 = false := by
        cases hx : (setup_cog_config file r p o).2
        · rfl
        · exact absurd hx hb
      have hf : (setup_cog_config_file file r p o).1 = file := by
        simp [setup_cog_config_file, hb2]
      rw [hf]
  · intro k hkr hkp hko
    by_cases hb : (setup_cog_config file r p o).2 = true
    · have hf : (setup_cog_config_file file r p o).1 =
          (setup_cog_config file r p o).1 := by
        simp [setup_cog_config_file, hb]
      rw [hf, tableAt_setup_cog_config, tableAt_ensure_changelog]
      exact apply_fields_lookup_ne _ r p o k hkr hkp hko
    · have hb2 : (setup_cog_config file r p o).2 = false := by
        cases hx : (setup_cog_config file r p o).2
        · rfl
        · exact absurd hx hb
      have hf : (setup_cog_config_file file r p o).1 = file := by
        simp [setup_cog_config_file, hb2]
      rw [hf]
  · intro _hnone
    unfold setup_cog_config
    dsimp only
    exact ⟨_, dictLookup_dictSet_self _ _ _⟩

theorem setup_cog_config_file_snd (file : Dict) (r p o : Option String) :
    (setup_cog_config_file file r p o).2 = (setup_cog_config file r p o).2 := rfl

theorem setup_cog_configuration_error_iff (inputs : Inputs)
    (remote owner repo : String) (w : ExtWorld) :
    setup_cog_configuration inputs remote owner repo w = Except.error () ↔
      (pyLower inputs.update_cog_toml = "true" ∧
        (w.config_file = none ∨
          ∃ file, w.config_file = some file ∧
            (setup_cog_config file (some remote) (some repo) (some owner)).2 = true ∧
            w.git_add_ok = false)) := by
  unfold setup_cog_configuration
  by_cases hu : pyLower inputs.update_cog_toml = "true"
  · rw [if_neg (fun hne => hne hu)]
    cases hcf : w.config_file with
    | none =>
        constructor
        · intro _
          exact ⟨hu, Or.inl rfl⟩
        · intro _
          rfl
    | some file =>
        by_cases hc : (setup_cog_config file (some remote) (some repo) (some owner)).2 = true <;>
          by_cases hg : w.git_add_ok = true <;>
            simp [setup_cog_config_io, setup_cog_config_file_snd, hu, hc, hg]
  · rw [if_pos (by simpa using hu)]
    simp [hu]

theorem mainRun_exitCode (inputs : Inputs) (env : Env) (w : ExtWorld) :
    (mainRun inputs env w).exitCode =
      (if (setup_cog_configuration inputs (set_default_values inputs env).1
          (set_default_values inputs env).2.1
          (set_default_values inputs env).2.2 w).isOk then 0 else 1) := by
  simp only [mainRun]
  split
  · rename_i e heq
    rw [heq]
    rfl
  · rename_i u heq
    rw [heq]
    change _ = (0 : Nat)
    split
    · split
      · split <;> rfl
      · rfl
    · rfl

/-- C3: the orchestrator exits with code 1 exactly when the
configuration-synchronization step raises the typed pipeline error
(configuration update enabled and either cog.toml missing, or changes were
made and the `git add` staging call failed); for every other combination
of external-tool outcomes — version queries, bump, changelog generation,
release creation, diagnostic git calls, commit/push — the run completes
with exit code 0. -/
theorem c3_exit_code_only_config_sync_fatal (inputs : Inputs) (env : Env)
    (w : ExtWorld) :
    ((mainRun inputs env w).exitCode = 0 ∨ (mainRun inputs env w).exitCode = 1) ∧
    ((mainRun inputs env w).exitCode = 1 ↔
      (pyLower inputs.update_cog_toml = "true" ∧
        (w.config_file = none ∨
          ∃ file, w.config_file = some file ∧
            (setup_cog_config file (some (set_default_values inputs env).1)
              (some (set_default_values inputs env).2.2)
              (some (set_default_values inputs env).2.1)).2 = true ∧
            w.git_add_ok = false))) := by
  have hiff := setup_cog_configuration_error_iff inputs
      (set_default_values inputs env).1 (set_default_values inputs env).2.1
      (set_default_values inputs env).2.2 w
  rw [mainRun_exitCode]
  cases hsc : setup_cog_configuration inputs (set_default_values inputs env).1
      (set_default_values inputs env).2.1 (set_default_values inputs env).2.2 w with
  | error e =>
      cases e
      exact ⟨Or.inr rfl, ⟨fun _ => hiff.mp hsc, fun _ => rfl⟩⟩
  | ok u =>
      refine ⟨Or.inl rfl, ⟨fun h => ?_, fun hr => ?_⟩⟩
      · have h0 : (0 : Nat) = 1 := h
        exact absurd h0 (by decide)
      · exact Except.noConfusion (hsc.symm.trans (hiff.mpr hr))

/-- C6: the Changelog Generator returns the empty string when the
underlying tool exits non-zero (the exception of the wrapper is caught,
never reaching the caller — the model is a total function); and the
tag_prefix read defaults to the empty string both when reading or parsing
cog.toml fails and when the key is absent. -/
theorem c6_changelog_error_handling (inputs : Inputs)
    (remote owner repo version : String) (cfg : Except Unit Dict)
    (tool : List String → CmdResult) :
    ((tool (changelog_args inputs remote owner repo version cfg)).returncode ≠ 0 →
      generate_changelog inputs remote owner repo version cfg tool = "") ∧
    (∀ e : Unit, cfg = Except.error e → get_tag_pfx cfg = "") ∧
    (∀ config : Dict, cfg = Except.ok config →
      dictLookup config "tag_prefix" = none → get_tag_pfx cfg = "") := by
  refine ⟨?_, ?_, ?_⟩
  · intro h
    unfold generate_changelog run_cog_command
    rw [if_neg h]
  · intro e he
    subst he
    rfl
  · intro config hc hl
    subst hc
    unfold get_tag_pfx
    dsimp only
    rw [hl]

/-- C7: the Release Publisher never propagates an exception (the model is
a total function of the network oracle).  It returns null when the token
is absent or empty (logging an error when a version was to be released),
null when no server URL resolves, null when the network call raises, and
for an empty version it is a no-op null result that never contacts the
forge (no release call is made). -/
theorem c7_release_publisher_null (env : Env) (net : Except Unit ApiResp)
    (version changelog owner repo : String) :
    (version = "" →
      (create_forgejo_release env net version changelog owner repo).result = none ∧
      (create_forgejo_release env net version changelog owner repo).call = none) ∧
    (truthy env.FORGEJO_TOKEN = false →
      (create_forgejo_release env net version changelog owner repo).result = none ∧
      (version ≠ "" →
        (LogLevel.err, "FORGEJO_TOKEN environment variable not set") ∈
          (create_forgejo_release env net version changelog owner repo).logs)) ∧
    (truthy (pyOrOpt env.FORGEJO_SERVER_URL env.GITHUB_SERVER_URL) = false →
      (create_forgejo_release env net version changelog owner repo).result = none) ∧
    (net = Except.error () →
      (create_forgejo_release env net version changelog owner repo).result = none) := by
  refine ⟨?_, ?_, ?_, ?_⟩
  · intro hv
    subst hv
    simp [create_forgejo_release]
  · intro ht
    by_cases hv : version = ""
    · subst hv
      simp [create_forgejo_release]
    · refine ⟨?_, fun _ => ?_⟩
      · simp [create_forgejo_release, hv, ht]
      · simp [create_forgejo_release, hv, ht]
  · intro hs
    by_cases hv : version = ""
    · subst hv
      simp [create_forgejo_release]
    · by_cases ht : truthy env.FORGEJO_TOKEN = true
      · simp [create_forgejo_release, hv, ht, hs]
      · simp [create_forgejo_release, hv, ht]
  · intro hn
    subst hn
    by_cases hv : version = ""
    · subst hv
      simp [create_forgejo_release]
    · by_cases ht : truthy env.FORGEJO_TOKEN = true
      · by_cases hs : truthy (pyOrOpt env.FORGEJO_SERVER_URL env.GITHUB_SERVER_URL) = true
        · simp [create_forgejo_release, hv, ht, hs]
        · simp [create_forgejo_release, hv, ht, hs]
      · simp [create_forgejo_release, hv, ht]

/-- C8: the release call uses the bare version string as both `tag_name`
and `name`, while the changelog of the same run is scoped with `--at` to
`tag_prefix + version`; hence for every non-empty tag_prefix the release
tag and the changelog tag differ. -/
theorem c8_release_tag_bare_version (inputs : Inputs) (env : Env)
    (net : Except Unit ApiResp) (version changelog owner repo remote : String)
    (cfg : Except Unit Dict) :
    (∀ c, (create_forgejo_release env net version changelog owner repo).call = some c →
      c.tag_name = version ∧ c.name = version) ∧
    (version ≠ "" →
      ∃ pre, changelog_args inputs remote owner repo version cfg =
        pre ++ ["--at", full_tag cfg version]) ∧
    (get_tag_pfx cfg ≠ "" → full_tag cfg version ≠ version) := by
  refine ⟨?_, ?_, ?_⟩
  · intro c hc
    unfold create_forgejo_release at hc
    split at hc
    · simp at hc
    · split at hc
      · simp at hc
      · split at hc
        · simp at hc
        · cases net with
          | error e =>
              simp only [Option.some.injEq] at hc
              subst hc
              exact ⟨rfl, rfl⟩
          | ok resp =>
              simp only [Option.some.injEq] at hc
              subst hc
              exact ⟨rfl, rfl⟩
  · intro hv
    simp only [changelog_args]
    rw [if_pos hv]
    exact ⟨_, rfl⟩
  · intro hp heq
    unfold full_tag at heq
    have hlen := congrArg String.length heq
    rw [String.length_append] at hlen
    have hdata : (get_tag_pfx cfg).data = [] :=
      List.length_eq_zero.mp (by omega : (get_tag_pfx cfg).length = 0)
    exact hp (String.ext (by simp [hdata]))

/-- C2 (amended): whenever a release is actually created, `main` emits
`forgejo_release_output` as the JSON encoding of the already
JSON-serialized release dictionary — the record is JSON-encoded twice
(`json.dumps` inside `create_forgejo_release` and `json.dumps` again in
`main`), so parsing the output once yields a string holding the record's
JSON rather than the record object; and the output is emitted exactly
when the release-creation step returned a JSON string. -/
theorem c2_release_output_double_encoded (inputs : Inputs) (env : Env)
    (w : ExtWorld) :
    (∀ resp version changelog owner repo, version ≠ "" →
      truthy env.FORGEJO_TOKEN = true →
      truthy (pyOrOpt env.FORGEJO_SERVER_URL env.GITHUB_SERVER_URL) = true →
      (create_forgejo_release env (Except.ok resp) version changelog owner repo).result =
        some (jobjDump (release_dict version changelog
          (release_url_of env resp owner repo version) resp.api_id))) ∧
    ((mainRun inputs env w).outputs.lookup "forgejo_release_output" =
      if (setup_cog_configuration inputs (set_default_values inputs env).1
            (set_default_values inputs env).2.1
            (set_default_values inputs env).2.2 w).isOk
          ∧ pyLower inputs.create_forgejo_release_input = "true"
          ∧ get_cog_version w.cog_get_version2 ≠ ""
        then Option.map jdumpStr
          (create_forgejo_release env w.release_api
            (get_cog_version w.cog_get_version2)
            (generate_changelog inputs (set_default_values inputs env).1
              (set_default_values inputs env).2.1
              (set_default_values inputs env).2.2
              (get_cog_version w.cog_get_version2) w.cog_toml_read
              w.cog_changelog_tool)
            (set_default_values inputs env).2.1
            (set_default_values inputs env).2.2).result
        else none) := by
  constructor
  · intro resp version changelog owner repo hv ht hs
    exact create_forgejo_release_result_ok env resp version changelog owner repo hv ht hs
  · simp only [mainRun]
    split
    · rename_i e heq
      rw [heq]
      rfl
    · rename_i u heq
      rw [heq]
      by_cases hcond : pyLower inputs.create_forgejo_release_input = "true" ∧
          get_cog_version w.cog_get_version2 ≠ ""
      · rw [if_pos hcond, if_pos (⟨rfl, hcond.1, hcond.2⟩ :
          (Except.ok u).isOk = true ∧
            pyLower inputs.create_forgejo_release_input = "true" ∧
            get_cog_version w.cog_get_version2 ≠ "")]
        cases hres : (create_forgejo_release env w.release_api
            (get_cog_version w.cog_get_version2)
            (generate_changelog inputs (set_default_values inputs env).1
              (set_default_values inputs env).2.1
              (set_default_values inputs env).2.2
              (get_cog_version w.cog_get_version2) w.cog_toml_read
              w.cog_changelog_tool)
            (set_default_values inputs env).2.1
            (set_default_values inputs env).2.2).result with
        | none => rfl
        | some s =>
            have hne : s ≠ "" :=
              create_forgejo_release_result_ne_empty _ _ _ _ _ _ _ hres
            dsimp only
            rw [if_pos hne]
            rfl
      · rw [if_neg hcond, if_neg
          (show ¬((Except.ok u).isOk = true ∧
              pyLower inputs.create_forgejo_release_input = "true" ∧
              get_cog_version w.cog_get_version2 ≠ "") from
            fun hcontra => hcond ⟨hcontra.2.1, hcontra.2.2⟩)]
        rfl

set_option maxRecDepth 100000 in
/-- C2 counterexample: in a run that actually creates a release, the
emitted `forgejo_release_output` is the JSON string literal wrapping the
release dictionary's JSON (a double encoding), not the JSON encoding of
the release dictionary itself. -/
theorem c2_release_output_counterexample :
    (mainRun inputs0 env0 w0).outputs.lookup "forgejo_release_output" =
      some (jdumpStr (jobjDump (release_dict "1.0.0" "Release notes"
        "https://git.example.com/acme/proj/releases/tag/1.0.0" (some 7)))) ∧
    (mainRun inputs0 env0 w0).outputs.lookup "forgejo_release_output" ≠
      some (jobjDump (release_dict "1.0.0" "Release notes"
        "https://git.example.com/acme/proj/releases/tag/1.0.0" (some 7))) := by
  constructor
  · decide
  · decide

/-- A changelog-tool oracle that always exits non-zero. -/
def toolFail : List String → CmdResult := fun _ => ⟨1, "", "fatal"⟩

/-- A parsed cog.toml declaring `tag_prefix = "v"`. -/
def cfg_v : Except Unit Dict := Except.ok [("tag_prefix", Toml.str "v")]

theorem c2_release_output_double_encoded_witness :
    ("1.0.0" : String) ≠ "" ∧ truthy env0.FORGEJO_TOKEN = true ∧
    truthy (pyOrOpt env0.FORGEJO_SERVER_URL env0.GITHUB_SERVER_URL) = true ∧
    (create_forgejo_release env0 (Except.ok resp0) "1.0.0" "Release notes"
        "acme" "proj").result =
      some (jobjDump (release_dict "1.0.0" "Release notes"
        (release_url_of env0 resp0 "acme" "proj" "1.0.0") resp0.api_id)) ∧
    ((mainRun inputs0 env0 w0).outputs.lookup "forgejo_release_output" =
      if (setup_cog_configuration inputs0 (set_default_values inputs0 env0).1
            (set_default_values inputs0 env0).2.1
            (set_default_values inputs0 env0).2.2 w0).isOk
          ∧ pyLower inputs0.create_forgejo_release_input = "true"
          ∧ get_cog_version w0.cog_get_version2 ≠ ""
        then Option.map jdumpStr
          (create_forgejo_release env0 w0.release_api
            (get_cog_version w0.cog_get_version2)
            (generate_changelog inputs0 (set_default_values inputs0 env0).1
              (set_default_values inputs0 env0).2.1
              (set_default_values inputs0 env0).2.2
              (get_cog_version w0.cog_get_version2) w0.cog_toml_read
              w0.cog_changelog_tool)
            (set_default_values inputs0 env0).2.1
            (set_default_values inputs0 env0).2.2).result
        else none) :=
  ⟨by decide, by decide, by decide,
   (c2_release_output_double_encoded inputs0 env0 w0).1 resp0 "1.0.0"
     "Release notes" "acme" "proj" (by decide) (by decide) (by decide),
   (c2_release_output_double_encoded inputs0 env0 w0).2⟩

theorem c4_config_sync_idempotent_witness :
    changelogWF file0 = true ∧
    (setup_cog_config_file (setup_cog_config_file file0 (some "git.example.com")
        (some "proj") (some "acme")).1 (some "git.example.com") (some "proj")
        (some "acme")).2 = false ∧
    (setup_cog_config_file (setup_cog_config_file file0 (some "git.example.com")
        (some "proj") (some "acme")).1 (some "git.example.com") (some "proj")
        (some "acme")).1 =
      (setup_cog_config_file file0 (some "git.example.com") (some "proj")
        (some "acme")).1 :=
  ⟨by decide,
   (c4_config_sync_idempotent file0 (some "git.example.com") (some "proj")
     (some "acme") (by decide)).1,
   (c4_config_sync_idempotent file0 (some "git.example.com") (some "proj")
     (some "acme") (by decide)).2⟩

theorem c5_config_sync_no_overwrite_witness :
    dictLookup (tableAt file_existing "changelog") "remote" =
      some (Toml.str "existing") ∧
    (setup_cog_config file_existing (some "new") none none =
      setup_cog_config file_existing none none none ∧
    dictLookup (tableAt (setup_cog_config file_existing (some "new") none none).1
      "changelog") "remote" = some (Toml.str "existing")) ∧
    (setup_cog_config file_existing (some "new") none none).2 = false :=
  ⟨rfl,
   (c5_config_sync_no_overwrite file_existing (some "new") none none).1
     (Toml.str "existing") rfl,
   by decide⟩

theorem c6_changelog_error_handling_witness :
    (toolFail (changelog_args inputs0 "git.example.com" "acme" "proj" "1.0.0"
        (Except.ok []))).returncode ≠ 0 ∧
    generate_changelog inputs0 "git.example.com" "acme" "proj" "1.0.0"
      (Except.ok []) toolFail = "" ∧
    get_tag_pfx (Except.error ()) = "" ∧
    get_tag_pfx (Except.ok ([] : Dict)) = "" :=
  ⟨by decide,
   (c6_changelog_error_handling inputs0 "git.example.com" "acme" "proj" "1.0.0"
     (Except.ok []) toolFail).1 (by decide),
   (c6_changelog_error_handling inputs0 "git.example.com" "acme" "proj" "1.0.0"
     (Except.error ()) toolFail).2.1 () rfl,
   (c6_changelog_error_handling inputs0 "git.example.com" "acme" "proj" "1.0.0"
     (Except.ok []) toolFail).2.2 [] rfl rfl⟩

theorem c7_release_publisher_null_witness :
    truthy env_unset.FORGEJO_TOKEN = false ∧
    (create_forgejo_release env_unset (Except.ok resp0) "1.0.0" "notes"
      "acme" "proj").result = none ∧
    (LogLevel.err, "FORGEJO_TOKEN environment variable not set") ∈
      (create_forgejo_release env_unset (Except.ok resp0) "1.0.0" "notes"
        "acme" "proj").logs ∧
    (create_forgejo_release env0 (Except.error ()) "1.0.0" "notes"
      "acme" "proj").result = none ∧
    (create_forgejo_release env0 (Except.ok resp0) "" "notes"
      "acme" "proj").result = none ∧
    (create_forgejo_release env0 (Except.ok resp0) "" "notes"
      "acme" "proj").call = none :=
  ⟨by decide,
   ((c7_release_publisher_null env_unset (Except.ok resp0) "1.0.0" "notes"
     "acme" "proj").2.1 (by decide)).1,
   ((c7_release_publisher_null env_unset (Except.ok resp0) "1.0.0" "notes"
     "acme" "proj").2.1 (by decide)).2 (by decide),
   (c7_release_publisher_null env0 (Except.error ()) "1.0.0" "notes"
     "acme" "proj").2.2.2 rfl,
   ((c7_release_publisher_null env0 (Except.ok resp0) "" "notes"
     "acme" "proj").1 rfl).1,
   ((c7_release_publisher_null env0 (Except.ok resp0) "" "notes"
     "acme" "proj").1 rfl).2⟩

theorem c8_release_tag_bare_version_witness :
    ("1.0.0" : String) ≠ "" ∧ get_tag_pfx cfg_v ≠ "" ∧
    (∃ pre, changelog_args inputs0 "git.example.com" "acme" "proj" "1.0.0" cfg_v =
      pre ++ ["--at", full_tag cfg_v "1.0.0"]) ∧
    full_tag cfg_v "1.0.0" ≠ "1.0.0" ∧
    (∀ c, (create_forgejo_release env0 (Except.ok resp0) "1.0.0" "notes"
        "acme" "proj").call = some c →
      c.tag_name = "1.0.0" ∧ c.name = "1.0.0") :=
  ⟨by decide, by decide,
   (c8_release_tag_bare_version inputs0 env0 (Except.ok resp0) "1.0.0" "notes"
     "acme" "proj" "git.example.com" cfg_v).2.1 (by decide),
   (c8_release_tag_bare_version inputs0 env0 (Except.ok resp0) "1.0.0" "notes"
     "acme" "proj" "git.example.com" cfg_v).2.2 (by decide),
   (c8_release_tag_bare_version inputs0 env0 (Except.ok resp0) "1.0.0" "notes"
     "acme" "proj" "git.example.com" cfg_v).1⟩

theorem c9_empty_string_not_inert_witness :
    changelogWF file0 = true ∧
    dictLookup (tableAt file0 "changelog") "remote" = none ∧
    ((setup_cog_config file0 (some "") none none).2 = true ∧
      dictLookup (tableAt (setup_cog_config file0 (some "") none none).1
        "changelog") "remote" = some (Toml.str "")) ∧
    dictLookup (tableAt (setup_cog_config file0 none none none).1 "changelog")
      "remote" = none ∧
    set_default_values inputs_blank env_unset = ("", "", "") ∧
    ((setup_cog_config file0 (some "") (some "") (some "")).2 = true ∧
      dictLookup (tableAt (setup_cog_config file0 (some "") (some "")
        (some "")).1 "changelog") "remote" = some (Toml.str "") ∧
      dictLookup (tableAt (setup_cog_config file0 (some "") (some "")
        (some "")).1 "changelog") "repository" = some (Toml.str "") ∧
      dictLookup (tableAt (setup_cog_config file0 (some "") (some "")
        (some "")).1 "changelog") "owner" = some (Toml.str "")) :=
  ⟨by decide, rfl,
   (c9_empty_string_not_inert file0 none none (by decide) rfl rfl rfl).1,
   (c9_empty_string_not_inert file0 none none (by decide) rfl rfl rfl).2.1,
   (c9_empty_string_not_inert file0 none none (by decide) rfl rfl rfl).2.2.1,
   (c9_empty_string_not_inert file0 none none (by decide) rfl rfl rfl).2.2.2⟩

theorem c10_config_sync_frame_witness :
    changelogWF file0 = true ∧
    setup_cog_config_io (some file0) (some "git.example.com") (some "proj")
        (some "acme") =
      Except.ok (setup_cog_config_file file0 (some "git.example.com")
        (some "proj") (some "acme")) ∧
    dictLookup (setup_cog_config_file file0 (some "git.example.com")
        (some "proj") (some "acme")).1 "tag_prefix" =
      dictLookup file0 "tag_prefix" ∧
    dictLookup (tableAt (setup_cog_config_file file0 (some "git.example.com")
        (some "proj") (some "acme")).1 "changelog") "path" =
      dictLookup (tableAt file0 "changelog") "path" ∧
    (∃ t, dictLookup (setup_cog_config ([] : Dict) (some "git.example.com")
        (some "proj") (some "acme")).1 "changelog" = some (Toml.table t)) :=
  ⟨by decide,
   (c10_config_sync_frame file0 (some "git.example.com") (some "proj")
     (some "acme") (by decide)).1,
   (c10_config_sync_frame file0 (some "git.example.com") (some "proj")
     (some "acme") (by decide)).2.1 "tag_prefix" (by decide),
   (c10_config_sync_frame file0 (some "git.example.com") (some "proj")
     (some "acme") (by decide)).2.2.1 "path" (by decide) (by decide) (by decide),
   (c10_config_sync_frame ([] : Dict) (some "git.example.com") (some "proj")
     (some "acme") (by decide)).2.2.2 rfl⟩

end ReleaseAction
